import Mathlib

/-!
Verification of the trade-in IMEI pipeline of `src/server.ts`
(shopping-assistant MCP backend).

The development shallowly embeds the pure decision logic of the pipeline:
string cleanup and Luhn checksum (`luhnCheck`, `validateImeiFormat`),
the TTL catalog cache (`fetchTradeInData`), the device resolver
(`getTradeInValue`, `matchImeiToTradeIn`), the Hyla gateway client
(`callHylaGateway`) and the value-disclosure gate of the
`get_tradein_value` tool handler (`getTradeInValueHandler`).
Network interaction is modelled by passing the wire-level response
(`HylaWire`, `FetchWire`) as an explicit argument; the mutable module-level
cache is modelled as explicit state (`CacheState`).
-/

/-! ## String helpers (JS primitives used by the source) -/

/-- Occurrence of `sub` as a contiguous run inside `l`; this is the list-level
model of JavaScript `String.prototype.includes`. -/
def occursIn (sub : List Char) : List Char → Bool
  | [] => sub.isEmpty
  | c :: t => ((c :: t).take sub.length == sub) || occursIn sub t

/-- JS `s.includes(sub)`. -/
def strIncludes (s sub : String) : Bool :=
  occursIn sub.data s.data

/-- JS `s.toLowerCase()` (the catalog and query strings are ASCII). -/
def strToLower (s : String) : String :=
  ⟨s.data.map Char.toLower⟩

/-- JS string truthiness / `a || b` on strings: `b` when `a` is empty. -/
def jsOr (a b : String) : String :=
  if a = "" then b else a

/-! ## Checksum validator (`luhnCheck`, `src/server.ts:844-857`) -/

/-- The per-position transform of `luhnCheck`: at an odd 0-based index the
digit is doubled and reduced by 9 when the double exceeds 9. -/
def luhnTransform (i d : Nat) : Nat :=
  if i % 2 = 1 then
    let dd := d * 2
    if dd > 9 then dd - 9 else dd
  else d

/-- Digits of the identifier string as read by `parseInt(imei[i], 10)`
(callers only reach `luhnCheck` with decimal-digit characters). -/
def imeiDigits (s : String) : List Nat :=
  s.data.map (fun c => c.toNat - 48)

/-- `luhnCheck` from `src/server.ts:844-857`: left-to-right accumulation of
the transformed digits, valid iff the sum is divisible by 10. -/
def luhnCheck (imei : String) : Bool :=
  ((imeiDigits imei).enum.foldl (fun sum p => sum + luhnTransform p.1 p.2) 0) % 10 == 0

/-- Modelled from the spec (section 4.1 wording, for comparison with the
source function `luhnCheck`): "iterate digit positions left-to-right
(0-indexed); for each digit at an odd index, double it and subtract 9 if the
doubled value exceeds 9; sum all (transformed) digits; valid iff
sum mod 10 == 0". -/
def specTransformedDigits (digits : List Nat) : List Nat :=
  digits.enum.map (fun p =>
    if p.1 % 2 = 1 then (if p.2 * 2 > 9 then p.2 * 2 - 9 else p.2 * 2) else p.2)

/-- Modelled from the spec: the checksum acceptance condition of section 4.1. -/
def specChecksumOk (digits : List Nat) : Bool :=
  (specTransformedDigits digits).sum % 10 == 0

/-! ## IMEI format validation (`validateImeiFormat`, `src/server.ts:794-840`) -/

/-- Characters removed by `imei.replace(/[\s\-().]/g, "")`. -/
def isImeiSeparator (c : Char) : Bool :=
  c.isWhitespace || c = '-' || c = '(' || c = ')' || c = '.'

/-- The cleaned identifier: the input with separator characters stripped. -/
def cleanImeiOf (s : String) : String :=
  ⟨s.data.filter (fun c => !isImeiSeparator c)⟩

structure ImeiFormatResult where
  valid : Bool
  cleanImei : String
  luhnValid : Bool
  message : String
  deriving DecidableEq, Repr

/-- The fixed message of the checksum-failure branch of `validateImeiFormat`. -/
def checksumFailMessage : String :=
  "IMEI failed Luhn checksum verification. This is likely not a valid IMEI number."

/-- The message of the length-failure branch (reports the length of the
cleaned identifier, which the text labels as its digit count). -/
def lengthFailMessage (clean : String) : String :=
  "IMEI must be exactly 15 digits. Received " ++ Nat.repr clean.length ++
    " digit" ++ (if clean.length ≠ 1 then "s" else "") ++ ": \"" ++ clean ++ "\""

/-- The message of the non-digit-failure branch. -/
def digitFailMessage (clean : String) : String :=
  "IMEI must contain only digits. Received: \"" ++ clean ++ "\""

/-- `validateImeiFormat` from `src/server.ts:794-840`: strip separators,
check length 15, check all-digits, then run `luhnCheck`. -/
def validateImeiFormat (imei : String) : ImeiFormatResult :=
  let cleanImei := cleanImeiOf imei
  if cleanImei.length ≠ 15 then
    { valid := false, cleanImei, luhnValid := false,
      message := lengthFailMessage cleanImei }
  else if !(cleanImei.data.all Char.isDigit) then
    { valid := false, cleanImei, luhnValid := false,
      message := digitFailMessage cleanImei }
  else if !(luhnCheck cleanImei) then
    { valid := false, cleanImei, luhnValid := false,
      message := checksumFailMessage }
  else
    { valid := true, cleanImei, luhnValid := true,
      message := "IMEI is valid (15 digits, Luhn checksum passed)." }

/-! ## Trade-in catalog data model (`src/server.ts:60-92`) -/

/-- One `productFamily` entry: a priced capacity variant of a model.
Catalog prices are whole currency amounts; `modelPrice` is embedded as ℤ. -/
structure TradeInProduct where
  capacity : String
  modelPrice : ℤ
  modelCode : String
  image : String
  deriving DecidableEq, Repr

structure TradeInModel where
  name : String
  productFamily : List TradeInProduct
  deriving DecidableEq, Repr

structure TradeInMake where
  name : String
  models : List TradeInModel
  deriving DecidableEq, Repr

structure TradeInCategory where
  category : String
  makes : List TradeInMake
  deriving DecidableEq, Repr

structure TradeInApiResponse where
  date : String
  devices : List TradeInCategory
  deriving DecidableEq, Repr

/-! ## Catalog cache (`fetchTradeInData`, `src/server.ts:95-97,328-349`)

The module-level variables `tradeInCache` / `tradeInCacheTime` are modelled
as an explicit `CacheState`; `Date.now()` and the outcome of the single
`fetch` of the call are passed as arguments. -/

structure CacheState where
  tradeInCache : Option TradeInApiResponse
  tradeInCacheTime : Int
  deriving DecidableEq, Repr

def TRADEIN_CACHE_TTL : Int := 15 * 60 * 1000

/-- The wire-level outcome of the catalog `fetch`: an ok response with a
parsed body, a non-ok HTTP status (the code then throws `HTTP ${status}`,
caught by its own catch), or a transport error thrown by `fetch` itself. -/
inductive FetchWire where
  | ok (data : TradeInApiResponse)
  | httpError (status : Nat)
  | networkError (msg : String)
  deriving DecidableEq, Repr

/-- Result of one `fetchTradeInData()` call: the returned value, the cache
state after the call, and whether a network request was issued. -/
structure FetchOutcome where
  result : Option TradeInApiResponse
  state : CacheState
  networkCalled : Bool
  deriving DecidableEq, Repr

/-- The cache-freshness test `tradeInCache && (now - tradeInCacheTime) < TRADEIN_CACHE_TTL`. -/
def cacheFresh (st : CacheState) (now : Int) : Bool :=
  st.tradeInCache.isSome && (now - st.tradeInCacheTime < TRADEIN_CACHE_TTL)

/-- `fetchTradeInData` from `src/server.ts:328-349`. On a fresh cache the
snapshot is returned without a network call; otherwise the fetch outcome
`wire` is consumed: success replaces the snapshot and resets its time, any
failure (HTTP error or network error) is caught and the previous snapshot
(possibly `none`) is returned with the state untouched. -/
def fetchTradeInData (st : CacheState) (now : Int) (wire : FetchWire) : FetchOutcome :=
  match st.tradeInCache with
  | some cache =>
    if now - st.tradeInCacheTime < TRADEIN_CACHE_TTL then
      { result := some cache, state := st, networkCalled := false }
    else
      match wire with
      | .ok data =>
        { result := some data
          state := { tradeInCache := some data, tradeInCacheTime := now }
          networkCalled := true }
      | _ => { result := st.tradeInCache, state := st, networkCalled := true }
  | none =>
    match wire with
    | .ok data =>
      { result := some data
        state := { tradeInCache := some data, tradeInCacheTime := now }
        networkCalled := true }
    | _ => { result := st.tradeInCache, state := st, networkCalled := true }

/-! ## Device resolver (`getTradeInValue`, `src/server.ts:373-455`) -/

/-- JS `Math.round` on the rationals that occur here: round half toward
positive infinity. -/
def jsRound (q : ℚ) : ℤ := ⌊q + 1 / 2⌋

/-- `args.good_condition !== false ? 1 : 0.5` (`src/server.ts:439`);
`none` models an omitted argument. -/
def conditionMultiplier (good_condition : Option Bool) : ℚ :=
  if good_condition ≠ some false then 1 else 1 / 2

/-- `Math.round(selectedDevice.modelPrice * conditionMultiplier)`
(`src/server.ts:440`, also `src/server.ts:2253-2254`), computed in integer
form: for multiplier 1 the rounding is the identity, and `Math.round` (half
toward positive infinity) of `p * 0.5` is `⌊(p + 1) / 2⌋`. Agreement with
the rational formula `jsRound (p * conditionMultiplier gc)` is proved in
`conditionValue_eq_jsRound`. -/
def conditionValue (good_condition : Option Bool) (modelPrice : ℤ) : ℤ :=
  if good_condition ≠ some false then modelPrice else (modelPrice + 1).fdiv 2

structure TradeInArgs where
  brand : String
  model : String
  capacity : Option String
  good_condition : Option Bool
  deriving DecidableEq, Repr

/-- The device record of a successful `getTradeInValue` result. -/
structure TradeInDeviceOut where
  brand : String
  model : String
  capacity : String
  image : String
  base_value : ℤ
  condition_value : ℤ
  available_capacities : List (String × ℤ)
  deriving DecidableEq, Repr

/-- Structured form of the `getTradeInValue` result: the source returns
`{ success, device?, message }` where each failure message embeds the data
carried here (`brandNotFound` renders the brand list joined with ", ";
`modelNotFound` renders its model list joined with ", " followed by "...").
`jsError` marks the path where `model.productFamily[0]` is `undefined` and
reading `.modelPrice` throws (caught by the tool handler's catch-all). -/
inductive TradeInLookup where
  | noData
  | noPhoneCategory
  | brandNotFound (availableBrands : List String)
  | modelNotFound (brand : String) (shownModels : List String)
  | jsError
  | found (device : TradeInDeviceOut)
  deriving DecidableEq, Repr

/-- `data.devices.find(d => d.category === "phone")`. -/
def phoneFind (d : TradeInApiResponse) : Option TradeInCategory :=
  d.devices.find? (fun c => c.category == "phone")

/-- Brand lookup of `getTradeInValue` (`src/server.ts:401-403`): exact
case-insensitive equality, first match wins. -/
def brandFindExact (makes : List TradeInMake) (brand : String) : Option TradeInMake :=
  makes.find? (fun m => strToLower m.name == strToLower brand)

/-- Model lookup of `getTradeInValue` (`src/server.ts:412-415`):
case-insensitive substring containment in either direction, first match wins. -/
def modelFindFuzzy (models : List TradeInModel) (model : String) : Option TradeInModel :=
  models.find? (fun m =>
    strIncludes (strToLower m.name) (strToLower model) ||
    strIncludes (strToLower model) (strToLower m.name))

/-- Capacity selection of `getTradeInValue` (`src/server.ts:429-436`):
exact case-insensitive match, defaulting to the first listed variant. -/
def selectVariant (pf0 : TradeInProduct) (rest : List TradeInProduct)
    (capacity : Option String) : TradeInProduct :=
  match capacity with
  | none => pf0
  | some cap =>
    match (pf0 :: rest).find? (fun pf => strToLower pf.capacity == strToLower cap) with
    | some m => m
    | none => pf0

/-- `getTradeInValue` from `src/server.ts:373-455`, over the catalog data it
received from `fetchTradeInData` (passed here as `data`). -/
def getTradeInValue (data : Option TradeInApiResponse) (args : TradeInArgs) : TradeInLookup :=
  match data with
  | none => .noData
  | some d =>
    match phoneFind d with
    | none => .noPhoneCategory
    | some phoneCategory =>
      match brandFindExact phoneCategory.makes args.brand with
      | none => .brandNotFound (phoneCategory.makes.map (fun m => m.name))
      | some make =>
        match modelFindFuzzy make.models args.model with
        | none => .modelNotFound args.brand ((make.models.take 10).map (fun m => m.name))
        | some model =>
          match model.productFamily with
          | [] => .jsError
          | pf0 :: rest =>
            let selectedDevice := selectVariant pf0 rest args.capacity
            .found
              { brand := args.brand
                model := model.name
                capacity := selectedDevice.capacity
                image := selectedDevice.image
                base_value := selectedDevice.modelPrice
                condition_value := conditionValue args.good_condition selectedDevice.modelPrice
                available_capacities :=
                  model.productFamily.map (fun pf => (pf.capacity, pf.modelPrice)) }

/-- Brand lookup of `matchImeiToTradeIn` (`src/server.ts:1012-1016`):
case-insensitive substring containment in either direction, first match wins. -/
def brandFindFuzzy (makes : List TradeInMake) (brand : String) : Option TradeInMake :=
  makes.find? (fun m =>
    strIncludes (strToLower m.name) (strToLower brand) ||
    strIncludes (strToLower brand) (strToLower m.name))

/-! ## Hyla verification gateway client (`callHylaGateway`, `src/server.ts:879-963`) -/

/-- The decoded JSON body of a gateway response: the two fields the client
reads (`data.code`, `data.message`); all other fields are opaque. -/
structure HylaBody where
  code : Option Int
  message : Option String
  deriving DecidableEq, Repr

/-- Wire-level shape of one gateway interaction: either `fetch` throws
(transport error), or an HTTP response arrives with some status and an
optional JSON body (`none` models a non-JSON body, whose parse failure is
swallowed by the inner catch leaving `data = null`). -/
inductive HylaWire where
  | transportError (errMsg : String)
  | http (status : Nat) (body : Option HylaBody)
  deriving DecidableEq, Repr

/-- The result record of `callHylaGateway`. -/
structure HylaResult where
  success : Bool
  data : Option HylaBody
  status : Nat
  hylaCode : Option Int
  hylaMessage : String
  message : String
  deriving DecidableEq, Repr

/-- `HYLA_ERROR_CODES` from `src/server.ts:870-877`. -/
def HYLA_ERROR_CODES (c : Int) : Option String :=
  if c = 4009 then some "IMEI does not match the selected device brand"
  else if c = 4010 then some "IMEI is blacklisted or reported stolen"
  else if c = 4011 then some "Device is not eligible for trade-in"
  else if c = 4001 then some "Invalid IMEI format"
  else if c = 4002 then some "IMEI not found in database"
  else if c = 400 then some "Bad request (missing session token or invalid parameters)"
  else none

/-- `const hylaCode = data?.code ? Number(data.code) : null`: a missing body,
a missing field, or a falsy (zero) code all yield `null`. -/
def extractHylaCode (body : Option HylaBody) : Option Int :=
  match body with
  | none => none
  | some b =>
    match b.code with
    | none => none
    | some c => if c = 0 then none else some c

/-- `const hylaMessage = (data?.message as string) || ""`. -/
def extractHylaMessage (body : Option HylaBody) : String :=
  match body with
  | none => ""
  | some b => jsOr (b.message.getD "") ""

/-- `response.ok`: HTTP status in the 200-299 range. -/
def httpOk (status : Nat) : Bool :=
  200 ≤ status && status ≤ 299

/-- `callHylaGateway` from `src/server.ts:879-963`. The whole body sits in a
try/catch: a transport error is converted to a structured failure with
status 0; every HTTP response (JSON or not, any status, any code) is
normalized into a `HylaResult` with `success` true exactly when the response
is HTTP-ok and carries no code ≥ 4000. -/
def callHylaGateway (wire : HylaWire) : HylaResult :=
  match wire with
  | .transportError errMsg =>
    { success := false, data := none, status := 0, hylaCode := none,
      hylaMessage := "", message := "Hyla API unreachable: " ++ errMsg }
  | .http status body =>
    let hylaCode := extractHylaCode body
    let hylaMessage := extractHylaMessage body
    if httpOk status && (match hylaCode with | none => true | some c => c < 4000) then
      { success := true, data := body, status, hylaCode, hylaMessage,
        message := "Hyla verification successful" }
    else
      let knownError := (match hylaCode with | some c => HYLA_ERROR_CODES c | none => none).getD ""
      { success := false, data := body, status, hylaCode,
        hylaMessage := jsOr hylaMessage (jsOr knownError ""),
        message := jsOr hylaMessage (jsOr knownError ("Hyla returned HTTP " ++ Nat.repr status)) }

/-! ## Trade-in gate of the `get_tradein_value` handler (`src/server.ts:1887-2027`) -/

/-- The VerificationOutcome taxonomy of the spec (section 3). -/
inductive VerificationOutcome where
  | Verified
  | Mismatch
  | DeviceIneligible
  | Unverifiable
  deriving DecidableEq, Repr

/-- JS truthiness of `hylaResult.hylaCode` (null and 0 are falsy). -/
def jsTruthyCode (c : Option Int) : Bool :=
  match c with
  | none => false
  | some v => v != 0

/-- The outcome classification the `get_tradein_value` gate performs on a
`callHylaGateway` result (`src/server.ts:1962-2001`): code 4009 blocks as a
mismatch, a truthy code ≥ 4010 blocks as ineligible, a failure with no code
blocks as unverifiable, and every remaining result falls through to the
"IMEI VERIFIED — show trade-in value" branch. -/
def classifyGateOutcome (r : HylaResult) : VerificationOutcome :=
  if r.hylaCode == some 4009 then .Mismatch
  else if jsTruthyCode r.hylaCode && (match r.hylaCode with | some c => 4010 ≤ c | none => false) then
    .DeviceIneligible
  else if !r.success && !jsTruthyCode r.hylaCode then .Unverifiable
  else .Verified

/-- Modelled from the spec (sections 4.4 and 9, and claim C2's wording, for
comparison with the gate's classification): only the specific mismatch code
4009 in [4000, 4010) is Mismatch, every code ≥ 4010 is DeviceIneligible, an
HTTP success carrying no code ≥ 4000 is Verified, and everything else —
transport failures and unknown codes alike — is Unverifiable (fail closed). -/
def specOutcome (wire : HylaWire) : VerificationOutcome :=
  match wire with
  | .transportError _ => .Unverifiable
  | .http status body =>
    match extractHylaCode body with
    | some c =>
      if c = 4009 then .Mismatch
      else if 4010 ≤ c then .DeviceIneligible
      else if 4000 ≤ c then .Unverifiable
      else if httpOk status then .Verified
      else .Unverifiable
    | none => if httpOk status then .Verified else .Unverifiable

/-- Model-code lookup of the `get_tradein_value` handler
(`src/server.ts:1913-1933`): scan the makes whose lowercased name contains
the query brand, inside them the models whose lowercased name contains the
query model, and take the first with a non-empty `productFamily`. -/
def lookupModelCode (data : Option TradeInApiResponse) (brand model : String) : Option String :=
  match data with
  | none => none
  | some d =>
    match phoneFind d with
    | none => none
    | some phoneCategory =>
      phoneCategory.makes.findSome? (fun make =>
        if strIncludes (strToLower make.name) (strToLower brand) then
          make.models.findSome? (fun mdl =>
            if strIncludes (strToLower mdl.name) (strToLower model) then
              match mdl.productFamily with
              | [] => none
              | pf0 :: _ => some pf0.modelCode
            else none)
        else none)

/-- Arguments of the `get_tradein_value` tool (brand, model, imei required). -/
structure GateArgs where
  brand : String
  model : String
  imei : String
  capacity : Option String
  good_condition : Option Bool
  deriving DecidableEq, Repr

/-- The terminal decisions of the `get_tradein_value` handler. A monetary
trade-in value is surfaced exactly in the `disclosed` variant. -/
inductive GateDecision where
  | invalidImei (message : String)
  | catalogMiss
  | blockedMismatch
  | blockedIneligible (code : Int)
  | blockedUnverifiable
  | verifiedNoValue
  | disclosed (value : ℤ) (baseValue : ℤ) (capacities : List (String × ℤ))
  deriving DecidableEq, Repr

/-- The `get_tradein_value` handler (`src/server.ts:1887-2027`): validate the
IMEI locally, look up the model code in the catalog, call the Hyla gateway,
then gate the value on the gateway result. `catalog` is the snapshot served
by `fetchTradeInData` during this request and `wire` the gateway response. -/
def getTradeInValueHandler (catalog : Option TradeInApiResponse) (wire : HylaWire)
    (args : GateArgs) : GateDecision :=
  let validation := validateImeiFormat args.imei
  if !validation.valid then .invalidImei validation.message
  else
    match lookupModelCode catalog args.brand args.model with
    | none => .catalogMiss
    | some _modelCode =>
      let hylaResult := callHylaGateway wire
      match classifyGateOutcome hylaResult with
      | .Mismatch => .blockedMismatch
      | .DeviceIneligible => .blockedIneligible (hylaResult.hylaCode.getD 0)
      | .Unverifiable => .blockedUnverifiable
      | .Verified =>
        match getTradeInValue catalog
            { brand := args.brand, model := args.model,
              capacity := args.capacity, good_condition := args.good_condition } with
        | .found device =>
          .disclosed device.condition_value device.base_value device.available_capacities
        | _ => .verifiedNoValue

/-! ## Concrete fixtures -/

/-- A one-brand, one-model catalog with base price 800, in the shape of the
upstream document (`category = "phone"`). -/
def demoCatalog : TradeInApiResponse :=
  { date := "2026-01-01"
    devices :=
      [{ category := "phone"
         makes :=
           [{ name := "Apple"
              models :=
                [{ name := "iPhone 15 Pro Max"
                   productFamily :=
                     [{ capacity := "256GB", modelPrice := 800,
                        modelCode := "2380452", image := "img" }] }] }] }] }

/-- A brand with eleven models (none of which matches the query "Nokia"),
used to exhibit the ten-model truncation of the model-miss message. -/
def elevenModels : List TradeInModel :=
  (List.range 11).map (fun i =>
    { name := "Galaxy S" ++ Nat.repr i
      productFamily := [{ capacity := "128GB", modelPrice := 100,
                          modelCode := "m" ++ Nat.repr i, image := "img" }] })

def bigCatalog : TradeInApiResponse :=
  { date := "2026-01-01"
    devices := [{ category := "phone", makes := [{ name := "Samsung", models := elevenModels }] }] }

/-- Gateway response: HTTP 400 whose body carries outcome code 400 (the
missing-session-token rejection documented in `HYLA_ERROR_CODES`). -/
def wireCode400 : HylaWire :=
  .http 400 (some { code := some 400, message := some "Bad request" })

/-- Gateway response: HTTP 200 whose body carries the error code 4001
("Invalid IMEI format" in the code's own `HYLA_ERROR_CODES` table). -/
def wireCode4001 : HylaWire :=
  .http 200 (some { code := some 4001, message := some "Invalid IMEI format" })

/-- Gateway response carrying the mismatch code 4009. -/
def wireCode4009 : HylaWire :=
  .http 400 (some { code := some 4009, message := some "mismatch" })

/-- Gateway response carrying the blacklist code 4010. -/
def wireCode4010 : HylaWire :=
  .http 400 (some { code := some 4010, message := some "blacklisted" })

/-- Gateway response: HTTP 200 with a non-JSON body (`data` stays null). -/
def wireNonJson : HylaWire :=
  .http 200 none

def demoArgs : GateArgs :=
  { brand := "Apple", model := "iPhone 15 Pro Max", imei := "490154203237518",
    capacity := none, good_condition := none }

/-- Resolver query for the demo device in bad declared condition. -/
def demoArgsBad : TradeInArgs :=
  { brand := "Apple", model := "iPhone 15 Pro Max", capacity := none,
    good_condition := some false }

/-- The device record `getTradeInValue` produces for `demoArgsBad`:
base price 800, disclosed value 400 after the 50% condition multiplier. -/
def demoDeviceBad : TradeInDeviceOut :=
  { brand := "Apple", model := "iPhone 15 Pro Max", capacity := "256GB", image := "img",
    base_value := 800, condition_value := 400, available_capacities := [("256GB", 800)] }

/-! ## Helper lemmas -/

lemma occursIn_nil (l : List Char) : occursIn [] l = true := by
  cases l <;> simp [occursIn]

lemma occursIn_append_middle (a b c : List Char) : occursIn b (a ++ (b ++ c)) = true := by
  induction a with
  | nil =>
    cases b with
    | nil => simpa using occursIn_nil c
    | cons x t =>
      show occursIn (x :: t) ((x :: t) ++ c) = true
      rw [List.cons_append]
      simp only [occursIn]
      rw [← List.cons_append, List.take_left]
      simp
  | cons y a' ih =>
    simp only [List.cons_append, occursIn, List.append_eq, ih, Bool.or_true]

lemma jsOr_ne_empty (a b : String) (hb : b ≠ "") : jsOr a b ≠ "" := by
  unfold jsOr
  split <;> simp_all

lemma append_ne_empty_left (a b : String) (ha : a ≠ "") : a ++ b ≠ "" := by
  intro h
  apply ha
  have hlen := congrArg String.length h
  simp only [String.length_append] at hlen
  have hempty : ("" : String).length = 0 := rfl
  have h0 : a.length = 0 := by omega
  cases a with
  | mk data =>
    cases data with
    | nil => rfl
    | cons c t => simp [String.length] at h0

lemma take_of_append_of_le {k : Nat} (l₁ l₂ : List Char) (h : k ≤ l₁.length) :
    (l₁ ++ l₂).take k = l₁.take k := by
  rw [List.take_append_eq_append_take, Nat.sub_eq_zero_of_le h, List.take_zero,
    List.append_nil]

lemma string_ne_of_take6 (pre rest : List Char) (other : String)
    (hlen : 6 ≤ pre.length) (hne : pre.take 6 ≠ other.data.take 6) :
    String.mk (pre ++ rest) ≠ other := by
  intro h
  apply hne
  have hd := congrArg String.data h
  simp only at hd
  rw [← hd, take_of_append_of_le _ _ hlen]

lemma foldl_add_eq_sum (g : Nat × Nat → Nat) :
    ∀ (l : List (Nat × Nat)) (n : Nat),
      l.foldl (fun acc p => acc + g p) n = n + (l.map g).sum := by
  intro l
  induction l with
  | nil => simp
  | cons a t ih =>
    intro n
    simp only [List.foldl_cons, List.map_cons, List.sum_cons, ih]
    omega

/-- Bridging lemma: the integer-form `conditionValue` agrees with the
source's rational formula `Math.round(modelPrice * conditionMultiplier)`. -/
lemma conditionValue_eq_jsRound (gc : Option Bool) (p : ℤ) :
    conditionValue gc p = jsRound ((p : ℚ) * conditionMultiplier gc) := by
  unfold conditionValue jsRound conditionMultiplier
  by_cases hgc : gc = some false
  · simp only [hgc, ne_eq, not_true_eq_false, if_false, ite_false]
    rcases Int.even_or_odd p with ⟨k, hk⟩ | ⟨k, hk⟩ <;> subst hk
    · have h1 : ((k + k : ℤ) : ℚ) * (1 / 2) + 1 / 2 = (k : ℚ) + 1 / 2 := by
        push_cast; ring
      rw [h1, Int.floor_int_add]
      have h2 : ⌊(1 / 2 : ℚ)⌋ = 0 := by
        rw [Int.floor_eq_zero_iff]
        constructor <;> norm_num
      rw [h2, Int.fdiv_eq_ediv _ (by norm_num)]
      omega
    · have h1 : ((2 * k + 1 : ℤ) : ℚ) * (1 / 2) + 1 / 2 = ((k + 1 : ℤ) : ℚ) := by
        push_cast; ring
      rw [h1, Int.floor_intCast, Int.fdiv_eq_ediv _ (by norm_num)]
      omega
  · simp only [hgc, ne_eq, not_false_iff, if_true, ite_true]
    have h1 : (p : ℚ) * 1 + 1 / 2 = (p : ℚ) + 1 / 2 := by ring
    rw [h1, Int.floor_int_add]
    have h2 : ⌊(1 / 2 : ℚ)⌋ = 0 := by
      rw [Int.floor_eq_zero_iff]
      constructor <;> norm_num
    omega

/-- Pointwise form of the checksum transform (the `let` unfolded). -/
lemma luhnTransform_eq (i d : Nat) :
    luhnTransform i d
      = (if i % 2 = 1 then (if d * 2 > 9 then d * 2 - 9 else d * 2) else d) := rfl

/-- A fresh cache is served as-is, with no network call. -/
lemma fetch_fresh (st : CacheState) (now : Int) (wire : FetchWire)
    (h : cacheFresh st now = true) :
    fetchTradeInData st now wire
      = { result := st.tradeInCache, state := st, networkCalled := false } := by
  obtain ⟨cache, time⟩ := st
  rcases cache with _ | c
  · simp [cacheFresh] at h
  · simp only [cacheFresh, Option.isSome_some, Bool.true_and, decide_eq_true_eq] at h
    simp [fetchTradeInData, h]

/-- A stale or absent cache always triggers the network fetch. -/
lemma fetch_stale_called (st : CacheState) (now : Int) (wire : FetchWire)
    (h : cacheFresh st now = false) :
    (fetchTradeInData st now wire).networkCalled = true := by
  obtain ⟨cache, time⟩ := st
  rcases cache with _ | c
  · rcases wire with d | s' | m <;> simp [fetchTradeInData]
  · simp only [cacheFresh, Option.isSome_some, Bool.true_and,
      decide_eq_false_iff_not] at h
    rcases wire with d | s' | m <;> simp [fetchTradeInData, h]

/-- A successful refresh replaces the snapshot and resets its timestamp. -/
lemma fetch_stale_ok (st : CacheState) (now : Int) (d : TradeInApiResponse)
    (h : cacheFresh st now = false) :
    fetchTradeInData st now (.ok d)
      = { result := some d
          state := { tradeInCache := some d, tradeInCacheTime := now }
          networkCalled := true } := by
  obtain ⟨cache, time⟩ := st
  rcases cache with _ | c
  · simp [fetchTradeInData]
  · simp only [cacheFresh, Option.isSome_some, Bool.true_and,
      decide_eq_false_iff_not] at h
    simp [fetchTradeInData, h]

/-- A failed refresh returns the previous snapshot and leaves the state
(including the timestamp) unchanged. -/
lemma fetch_stale_fail (st : CacheState) (now : Int) (wire : FetchWire)
    (h : cacheFresh st now = false) (hfail : ∀ d : TradeInApiResponse, wire ≠ .ok d) :
    fetchTradeInData st now wire
      = { result := st.tradeInCache, state := st, networkCalled := true } := by
  obtain ⟨cache, time⟩ := st
  rcases cache with _ | c
  · rcases wire with d | s' | m
    · exact absurd rfl (hfail d)
    · simp [fetchTradeInData]
    · simp [fetchTradeInData]
  · simp only [cacheFresh, Option.isSome_some, Bool.true_and,
      decide_eq_false_iff_not] at h
    rcases wire with d | s' | m
    · exact absurd rfl (hfail d)
    · simp [fetchTradeInData, h]
    · simp [fetchTradeInData, h]

/-- On any failed fetch (the catch path), the cache state is untouched. -/
lemma fetch_fail_state (st : CacheState) (now : Int) (wire : FetchWire)
    (hfail : ∀ d : TradeInApiResponse, wire ≠ .ok d) :
    (fetchTradeInData st now wire).state = st := by
  by_cases h : cacheFresh st now = true
  · rw [fetch_fresh st now wire h]
  · rw [fetch_stale_fail st now wire (by simpa using h) hfail]

/-! ## Claim theorems -/

/-- C3: the checksum validator `luhnCheck` implements exactly the algorithm
stated in the spec (left-to-right 0-indexed iteration, doubling at odd
indices with 9 subtracted when the double exceeds 9, validity iff the sum is
divisible by 10); it is a total deterministic Lean function by construction,
the fixture "490154203237518" passes the checksum, and "490154203237519"
fails it. -/
theorem C3_luhn_checksum_algorithm :
    (∀ s : String, luhnCheck s = specChecksumOk (imeiDigits s))
    ∧ luhnCheck "490154203237518" = true
    ∧ luhnCheck "490154203237519" = false := by
  refine ⟨fun s => ?_, by decide, by decide⟩
  unfold luhnCheck specChecksumOk specTransformedDigits
  rw [foldl_add_eq_sum (fun p => luhnTransform p.1 p.2)]
  simp only [Nat.zero_add, luhnTransform_eq]

/-- C4: `fetchTradeInData` returns a fresh cached snapshot without a network
call; when the cache is stale or absent it issues the fetch, replacing the
snapshot wholesale and resetting its timestamp on success, and returning the
previous snapshot (or `none` when there is none) unchanged on failure. -/
theorem C4_catalog_cache_ttl (st : CacheState) (now : Int) (wire : FetchWire) :
    (cacheFresh st now = true →
      fetchTradeInData st now wire
        = { result := st.tradeInCache, state := st, networkCalled := false })
    ∧ (cacheFresh st now = false → (fetchTradeInData st now wire).networkCalled = true)
    ∧ (∀ d : TradeInApiResponse, cacheFresh st now = false → wire = .ok d →
        fetchTradeInData st now wire
          = { result := some d
              state := { tradeInCache := some d, tradeInCacheTime := now }
              networkCalled := true })
    ∧ ((∀ d : TradeInApiResponse, wire ≠ .ok d) → cacheFresh st now = false →
        fetchTradeInData st now wire
          = { result := st.tradeInCache, state := st, networkCalled := true }) :=
  ⟨fetch_fresh st now wire,
   fetch_stale_called st now wire,
   fun d hstale hwire => hwire ▸ fetch_stale_ok st now d hstale,
   fun hfail hstale => fetch_stale_fail st now wire hstale hfail⟩

/-- C4 witness: a fresh cache is served without any network call; a stale
cache is refreshed on success and kept unchanged on failure. -/
theorem C4_catalog_cache_ttl_witness :
    fetchTradeInData { tradeInCache := some demoCatalog, tradeInCacheTime := 0 } 1000
        (.httpError 500)
      = { result := some demoCatalog
          state := { tradeInCache := some demoCatalog, tradeInCacheTime := 0 }
          networkCalled := false }
    ∧ fetchTradeInData { tradeInCache := some demoCatalog, tradeInCacheTime := 0 } 900000
        (.ok bigCatalog)
      = { result := some bigCatalog
          state := { tradeInCache := some bigCatalog, tradeInCacheTime := 900000 }
          networkCalled := true }
    ∧ fetchTradeInData { tradeInCache := some demoCatalog, tradeInCacheTime := 0 } 900000
        (.networkError "offline")
      = { result := some demoCatalog
          state := { tradeInCache := some demoCatalog, tradeInCacheTime := 0 }
          networkCalled := true } :=
  ⟨(C4_catalog_cache_ttl { tradeInCache := some demoCatalog, tradeInCacheTime := 0 } 1000
      (.httpError 500)).1 (by decide),
   (C4_catalog_cache_ttl { tradeInCache := some demoCatalog, tradeInCacheTime := 0 } 900000
      (.ok bigCatalog)).2.2.1 bigCatalog (by decide) rfl,
   (C4_catalog_cache_ttl { tradeInCache := some demoCatalog, tradeInCacheTime := 0 } 900000
      (.networkError "offline")).2.2.2 (fun d h => by cases h) (by decide)⟩

/-- C10: a failed fetch leaves the cache state (snapshot and timestamp)
entirely unchanged, so once the snapshot is stale every subsequent call
re-attempts the network fetch; failed refreshes are never cached for the
freshness window. -/
theorem C10_failed_fetch_frame (st : CacheState) (now : Int) (wire : FetchWire)
    (hfail : ∀ d : TradeInApiResponse, wire ≠ .ok d) :
    (fetchTradeInData st now wire).state = st
    ∧ (cacheFresh st now = false → (fetchTradeInData st now wire).networkCalled = true)
    ∧ (∀ (now' : Int) (wire' : FetchWire), cacheFresh st now' = false →
        (fetchTradeInData (fetchTradeInData st now wire).state now' wire').networkCalled
          = true) := by
  refine ⟨fetch_fail_state st now wire hfail, fetch_stale_called st now wire, ?_⟩
  intro now' wire' hstale
  rw [fetch_fail_state st now wire hfail]
  exact fetch_stale_called st now' wire' hstale

/-- C10 witness: after a failed refresh of a stale snapshot the state is
unchanged, and the next call issues the fetch again. -/
theorem C10_failed_fetch_frame_witness :
    (fetchTradeInData { tradeInCache := some demoCatalog, tradeInCacheTime := 0 } 900000
        (.networkError "offline")).state
      = { tradeInCache := some demoCatalog, tradeInCacheTime := 0 }
    ∧ (fetchTradeInData
        (fetchTradeInData { tradeInCache := some demoCatalog, tradeInCacheTime := 0 } 900000
          (.networkError "offline")).state
        900001 (.httpError 503)).networkCalled = true :=
  have h := C10_failed_fetch_frame { tradeInCache := some demoCatalog, tradeInCacheTime := 0 }
    900000 (.networkError "offline") (fun d hd => by cases hd)
  ⟨h.1, h.2.2 900001 (.httpError 503) (by decide)⟩

/-- Inversion for successful resolutions: the disclosed `condition_value` of
any `found` result is `conditionValue` of its own `base_value` (the price of
the selected variant). -/
lemma getTradeInValue_found_inv (data : Option TradeInApiResponse) (args : TradeInArgs)
    (device : TradeInDeviceOut) (h : getTradeInValue data args = .found device) :
    device.condition_value = conditionValue args.good_condition device.base_value := by
  unfold getTradeInValue at h
  split at h
  · simp at h
  · split at h
    · simp at h
    · split at h
      · simp at h
      · split at h
        · simp at h
        · split at h
          · simp at h
          · simp only [TradeInLookup.found.injEq] at h
            rw [← h]

/-- C6: for every successful resolution the disclosed value is the selected
variant's price times the condition multiplier (1 when `good_condition` is
true or omitted, 0.5 when false), rounded to the nearest whole unit
(`Math.round`); in particular base price 800 yields 800 in good condition
and 400 in bad condition. -/
theorem C6_condition_value_formula :
    (∀ (data : Option TradeInApiResponse) (args : TradeInArgs) (device : TradeInDeviceOut),
      getTradeInValue data args = .found device →
        device.condition_value
          = jsRound ((device.base_value : ℚ) * conditionMultiplier args.good_condition)
        ∧ (args.good_condition ≠ some false → device.condition_value = device.base_value)
        ∧ (args.good_condition = some false →
            device.condition_value = (device.base_value + 1).fdiv 2))
    ∧ getTradeInValue (some demoCatalog)
        { brand := "Apple", model := "iPhone 15 Pro Max", capacity := none,
          good_condition := some true }
      = .found { demoDeviceBad with condition_value := 800 }
    ∧ getTradeInValue (some demoCatalog) demoArgsBad = .found demoDeviceBad := by
  refine ⟨fun data args device h => ?_, by decide, by decide⟩
  have hv := getTradeInValue_found_inv data args device h
  refine ⟨?_, ?_, ?_⟩
  · rw [hv, conditionValue_eq_jsRound]
  · intro hgc
    rw [hv]
    simp [conditionValue, hgc]
  · intro hgc
    rw [hv]
    simp [conditionValue, hgc]

/-- C6 witness: the bad-condition demo resolution discloses
`Math.round(800 * 0.5) = 400`. -/
theorem C6_condition_value_formula_witness :
    demoDeviceBad.condition_value
      = jsRound ((demoDeviceBad.base_value : ℚ) * conditionMultiplier (some false))
    ∧ demoDeviceBad.condition_value = (demoDeviceBad.base_value + 1).fdiv 2 :=
  have h := C6_condition_value_formula.1 (some demoCatalog) demoArgsBad demoDeviceBad
    (by decide)
  ⟨h.1, h.2.2 rfl⟩

/-- Strings whose first six characters differ are different. -/
lemma ne_of_data_take6 (s t : String) (h : s.data.take 6 ≠ t.data.take 6) : s ≠ t :=
  fun he => h (he ▸ rfl)

/-- Decomposition of the length-failure message into its leading literal and
the rest (right-nested, ready for prefix and occurrence arguments). -/
lemma lengthFailMessage_data (clean : String) :
    (lengthFailMessage clean).data
      = "IMEI must be exactly 15 digits. Received ".data
        ++ ((Nat.repr clean.length).data
        ++ (" digit".data
        ++ ((if clean.length ≠ 1 then "s" else "" : String).data
        ++ (": \"".data ++ (clean.data ++ "\"".data))))) := by
  simp [lengthFailMessage, String.data_append, List.append_assoc]

lemma lengthFail_ne_checksum (clean : String) :
    lengthFailMessage clean ≠ checksumFailMessage := by
  apply ne_of_data_take6
  rw [lengthFailMessage_data, take_of_append_of_le _ _ (by decide)]
  decide

lemma lengthFail_includes_count (clean : String) :
    strIncludes (lengthFailMessage clean) (Nat.repr clean.length) = true := by
  unfold strIncludes
  rw [lengthFailMessage_data]
  exact occursIn_append_middle _ _ _

lemma digitFail_ne_checksum (clean : String) :
    digitFailMessage clean ≠ checksumFailMessage := by
  apply ne_of_data_take6
  have hdata : (digitFailMessage clean).data
      = "IMEI must contain only digits. Received: \"".data ++ (clean.data ++ "\"".data) := by
    simp [digitFailMessage, String.data_append, List.append_assoc]
  rw [hdata, take_of_append_of_le _ _ (by decide)]
  decide

/-- Branch characterization: cleaned length other than 15. -/
lemma validateImeiFormat_len (s : String) (hlen : (cleanImeiOf s).length ≠ 15) :
    validateImeiFormat s
      = { valid := false, cleanImei := cleanImeiOf s, luhnValid := false,
          message := lengthFailMessage (cleanImeiOf s) } := by
  unfold validateImeiFormat
  rw [if_pos hlen]

/-- Branch characterization: length 15 with a non-digit character. -/
lemma validateImeiFormat_digit (s : String) (hlen : (cleanImeiOf s).length = 15)
    (hdig : (cleanImeiOf s).data.all Char.isDigit = false) :
    validateImeiFormat s
      = { valid := false, cleanImei := cleanImeiOf s, luhnValid := false,
          message := digitFailMessage (cleanImeiOf s) } := by
  unfold validateImeiFormat
  rw [if_neg (by simp [hlen]), hdig]
  rfl

/-- Branch characterization: well-formed 15-digit string failing the Luhn check. -/
lemma validateImeiFormat_checksum (s : String) (hlen : (cleanImeiOf s).length = 15)
    (hdig : (cleanImeiOf s).data.all Char.isDigit = true)
    (hluhn : luhnCheck (cleanImeiOf s) = false) :
    validateImeiFormat s
      = { valid := false, cleanImei := cleanImeiOf s, luhnValid := false,
          message := checksumFailMessage } := by
  unfold validateImeiFormat
  rw [if_neg (by simp [hlen]), hdig, hluhn]
  rfl

/-- Branch characterization: fully valid identifier. -/
lemma validateImeiFormat_ok (s : String) (hlen : (cleanImeiOf s).length = 15)
    (hdig : (cleanImeiOf s).data.all Char.isDigit = true)
    (hluhn : luhnCheck (cleanImeiOf s) = true) :
    validateImeiFormat s
      = { valid := true, cleanImei := cleanImeiOf s, luhnValid := true,
          message := "IMEI is valid (15 digits, Luhn checksum passed)." } := by
  unfold validateImeiFormat
  rw [if_neg (by simp [hlen]), hdig, hluhn]
  rfl

/-- C5: `validateImeiFormat` strips separators and then rejects on a cleaned
length other than 15 with a format error whose message reports the observed
count (the cleaned length, which the message labels as digits), rejects
remaining non-digit characters with a format error distinct from the
checksum error, and produces the distinct "failed checksum" message exactly
for well-formed 15-digit strings failing the Luhn check. -/
theorem C5_imei_format_errors (s : String) :
    ((cleanImeiOf s).length ≠ 15 →
      (validateImeiFormat s).valid = false
      ∧ strIncludes (validateImeiFormat s).message (Nat.repr (cleanImeiOf s).length) = true
      ∧ (validateImeiFormat s).message ≠ checksumFailMessage)
    ∧ ((cleanImeiOf s).length = 15 → (cleanImeiOf s).data.all Char.isDigit = false →
      (validateImeiFormat s).valid = false
      ∧ (validateImeiFormat s).message ≠ checksumFailMessage)
    ∧ ((validateImeiFormat s).message = checksumFailMessage ↔
      (cleanImeiOf s).length = 15 ∧ (cleanImeiOf s).data.all Char.isDigit = true
        ∧ luhnCheck (cleanImeiOf s) = false) := by
  refine ⟨?_, ?_, ?_⟩
  · intro hlen
    rw [validateImeiFormat_len s hlen]
    exact ⟨rfl, lengthFail_includes_count _, lengthFail_ne_checksum _⟩
  · intro hlen hdig
    rw [validateImeiFormat_digit s hlen hdig]
    exact ⟨rfl, digitFail_ne_checksum _⟩
  · constructor
    · intro hmsg
      by_cases hlen : (cleanImeiOf s).length = 15
      · by_cases hdig : (cleanImeiOf s).data.all Char.isDigit = true
        · by_cases hluhn : luhnCheck (cleanImeiOf s) = true
          · rw [validateImeiFormat_ok s hlen hdig hluhn] at hmsg
            have hne : ("IMEI is valid (15 digits, Luhn checksum passed)." : String)
                ≠ checksumFailMessage := by decide
            exact absurd hmsg hne
          · exact ⟨hlen, hdig, by simpa using hluhn⟩
        · rw [validateImeiFormat_digit s hlen (by simpa using hdig)] at hmsg
          exact absurd hmsg (digitFail_ne_checksum _)
      · rw [validateImeiFormat_len s hlen] at hmsg
        exact absurd hmsg (lengthFail_ne_checksum _)
    · rintro ⟨hlen, hdig, hluhn⟩
      rw [validateImeiFormat_checksum s hlen hdig hluhn]

/-- C5 witness: a five-digit input is rejected with a length report of 5, a
15-character input with letters is rejected as a format (not checksum)
error, and the corrupted fixture is rejected with the checksum message. -/
theorem C5_imei_format_errors_witness :
    ((validateImeiFormat "12345").valid = false
      ∧ strIncludes (validateImeiFormat "12345").message (Nat.repr 5) = true
      ∧ (validateImeiFormat "12345").message ≠ checksumFailMessage)
    ∧ ((validateImeiFormat "1234-ABCD-5678-90X").valid = false
      ∧ (validateImeiFormat "1234-ABCD-5678-90X").message ≠ checksumFailMessage)
    ∧ (validateImeiFormat "490154203237519").message = checksumFailMessage :=
  ⟨(C5_imei_format_errors "12345").1 (by decide),
   (C5_imei_format_errors "1234-ABCD-5678-90X").2.1 (by decide) (by decide),
   ((C5_imei_format_errors "490154203237519").2.2).mpr ⟨by decide, by decide, by decide⟩⟩

/-- C7 counterexample: on a catalog whose only brand is "Apple", the query
brand "Apple Inc" satisfies the claimed bidirectional case-insensitive
substring rule (the query contains the catalog brand name), and the fuzzy
brand matcher of `matchImeiToTradeIn` accepts it, yet the device resolver
`getTradeInValue` rejects it with a brand miss because its brand match is
exact case-insensitive equality. -/
theorem C7_brand_match_counterexample :
    getTradeInValue (some demoCatalog)
        { brand := "Apple Inc", model := "iPhone 15 Pro Max", capacity := none,
          good_condition := none }
      = .brandNotFound ["Apple"]
    ∧ strIncludes (strToLower "Apple Inc") (strToLower "Apple") = true
    ∧ (phoneFind demoCatalog).map (fun pc => (brandFindFuzzy pc.makes "Apple Inc").isSome)
      = some true := by decide

/-- C7 (amended): in the device resolver `getTradeInValue` the brand is
matched by exact case-insensitive equality with the first matching entry
winning; the bidirectional case-insensitive substring rule, first match
wins and no ranking, applies to the model match there and to the brand
match of `matchImeiToTradeIn`. -/
theorem C7_matching_rules_amended :
    (∀ (makes : List TradeInMake) (brand : String) (make : TradeInMake),
      brandFindExact makes brand = some make →
        strToLower make.name = strToLower brand
        ∧ ∃ pre post, makes = pre ++ make :: post
            ∧ ∀ m ∈ pre, strToLower m.name ≠ strToLower brand)
    ∧ (∀ (models : List TradeInModel) (q : String) (mdl : TradeInModel),
      modelFindFuzzy models q = some mdl →
        (strIncludes (strToLower mdl.name) (strToLower q) = true
          ∨ strIncludes (strToLower q) (strToLower mdl.name) = true)
        ∧ ∃ pre post, models = pre ++ mdl :: post
            ∧ ∀ m ∈ pre, strIncludes (strToLower m.name) (strToLower q) = false
                ∧ strIncludes (strToLower q) (strToLower m.name) = false)
    ∧ (∀ (makes : List TradeInMake) (brand : String) (make : TradeInMake),
      brandFindFuzzy makes brand = some make →
        (strIncludes (strToLower make.name) (strToLower brand) = true
          ∨ strIncludes (strToLower brand) (strToLower make.name) = true)
        ∧ ∃ pre post, makes = pre ++ make :: post
            ∧ ∀ m ∈ pre, strIncludes (strToLower m.name) (strToLower brand) = false
                ∧ strIncludes (strToLower brand) (strToLower m.name) = false) := by
  refine ⟨?_, ?_, ?_⟩
  · intro makes brand make h
    unfold brandFindExact at h
    rw [List.find?_eq_some] at h
    obtain ⟨hp, pre, post, heq, hall⟩ := h
    exact ⟨by simpa using hp, pre, post, heq, fun m hm => by simpa using hall m hm⟩
  · intro models q mdl h
    unfold modelFindFuzzy at h
    rw [List.find?_eq_some] at h
    obtain ⟨hp, pre, post, heq, hall⟩ := h
    refine ⟨by simpa [Bool.or_eq_true] using hp, pre, post, heq, fun m hm => ?_⟩
    have := hall m hm
    simpa [Bool.or_eq_true] using this
  · intro makes brand make h
    unfold brandFindFuzzy at h
    rw [List.find?_eq_some] at h
    obtain ⟨hp, pre, post, heq, hall⟩ := h
    refine ⟨by simpa [Bool.or_eq_true] using hp, pre, post, heq, fun m hm => ?_⟩
    have := hall m hm
    simpa [Bool.or_eq_true] using this

/-- C7 witness: the exact brand rule matches "APPLE" against catalog brand
"Apple" as the first (and only) entry. -/
theorem C7_matching_rules_amended_witness :
    strToLower (TradeInMake.mk "Apple" []).name = strToLower "APPLE"
    ∧ ∃ pre post, [TradeInMake.mk "Apple" []] = pre ++ TradeInMake.mk "Apple" [] :: post
        ∧ ∀ m ∈ pre, strToLower m.name ≠ strToLower "APPLE" :=
  C7_matching_rules_amended.1 [TradeInMake.mk "Apple" []] "APPLE" (TradeInMake.mk "Apple" [])
    (by decide)

/-- C8 counterexample: on a brand with eleven models, a model miss carries
only the first ten model names, not the full list of valid models. -/
theorem C8_alternatives_counterexample :
    getTradeInValue (some bigCatalog)
        { brand := "Samsung", model := "Nokia", capacity := none, good_condition := none }
      = .modelNotFound "Samsung" ((elevenModels.take 10).map (fun m => m.name))
    ∧ (elevenModels.take 10).map (fun m => m.name) ≠ elevenModels.map (fun m => m.name) := by
  decide

/-- C8 (amended): resolver misses return structured NotFound results, never
an exception: a brand miss carries the full list of valid brands; a model
miss carries the list of valid models of the matched brand truncated to the
first ten entries. -/
theorem C8_alternatives_amended (data : Option TradeInApiResponse) (args : TradeInArgs) :
    (∀ l, getTradeInValue data args = .brandNotFound l →
      ∃ d pc, data = some d ∧ phoneFind d = some pc
        ∧ l = pc.makes.map (fun m => m.name))
    ∧ (∀ b l, getTradeInValue data args = .modelNotFound b l →
      b = args.brand
      ∧ ∃ d pc make, data = some d ∧ phoneFind d = some pc
          ∧ brandFindExact pc.makes args.brand = some make
          ∧ l = (make.models.take 10).map (fun m => m.name)) := by
  constructor
  · intro l h
    unfold getTradeInValue at h
    split at h
    · simp at h
    · split at h
      · simp at h
      · split at h
        · simp only [TradeInLookup.brandNotFound.injEq] at h
          exact ⟨_, _, rfl, by assumption, h.symm⟩
        · split at h
          · simp at h
          · split at h <;> simp at h
  · intro b l h
    unfold getTradeInValue at h
    split at h
    · simp at h
    · split at h
      · simp at h
      · split at h
        · simp at h
        · split at h
          · simp only [TradeInLookup.modelNotFound.injEq] at h
            exact ⟨h.1.symm, _, _, _, rfl, by assumption, by assumption, h.2.symm⟩
          · split at h <;> simp at h

/-- C8 witness: on the eleven-model catalog the model miss is characterized
by the matched brand and the ten-model truncation. -/
theorem C8_alternatives_amended_witness :
    "Samsung" = "Samsung"
    ∧ ∃ d pc make, (some bigCatalog : Option TradeInApiResponse) = some d
        ∧ phoneFind d = some pc
        ∧ brandFindExact pc.makes "Samsung" = some make
        ∧ (elevenModels.take 10).map (fun m => m.name)
            = (make.models.take 10).map (fun m => m.name) :=
  (C8_alternatives_amended (some bigCatalog)
      { brand := "Samsung", model := "Nokia", capacity := none, good_condition := none }).2
    "Samsung" ((elevenModels.take 10).map (fun m => m.name)) (by decide)

/-- C1: evaluation of the `get_tradein_value` gate at the failing input. A
gateway response of HTTP 400 whose body carries outcome code 400 (the
documented missing-session-token rejection, an Unverifiable situation per
the spec's taxonomy) is not code 4009, not ≥ 4010, and not code-free, so the
handler falls through every blocking branch and surfaces the monetary
trade-in value even though the gateway result is not successful: the
claimed invariant "value present iff outcome is exactly Verified" is
violated by the code. -/
theorem C1_value_disclosed_without_verified_outcome :
    getTradeInValueHandler (some demoCatalog) wireCode400 demoArgs
      = .disclosed 800 800 [("256GB", 800)]
    ∧ (callHylaGateway wireCode400).success = false
    ∧ specOutcome wireCode400 = .Unverifiable := by decide

/-- C2: evaluation of the response-code mapping at the failing input. An
HTTP 200 response carrying outcome code 4001 ("Invalid IMEI format" in the
code's own `HYLA_ERROR_CODES` table) makes `callHylaGateway` report failure,
yet the `get_tradein_value` gate classifies it into the Verified branch and
surfaces the value: unknown codes do not fail closed to Unverifiable as
claimed. -/
theorem C2_unknown_code_falls_through_to_verified :
    classifyGateOutcome (callHylaGateway wireCode4001) = .Verified
    ∧ (callHylaGateway wireCode4001).success = false
    ∧ specOutcome wireCode4001 = .Unverifiable
    ∧ getTradeInValueHandler (some demoCatalog) wireCode4001 demoArgs
      = .disclosed 800 800 [("256GB", 800)]
    ∧ classifyGateOutcome (callHylaGateway wireCode4009) = .Mismatch
    ∧ classifyGateOutcome (callHylaGateway wireCode4010) = .DeviceIneligible
    ∧ classifyGateOutcome (callHylaGateway wireNonJson) = .Verified := by decide

/-- C9: the gateway client is exception-free: every wire-level response
shape (any HTTP status, JSON or non-JSON body, any outcome code) is
normalized into a structured result that carries the HTTP status and a
non-empty diagnostic message, and a transport-level exception is caught and
converted into a failure result (status 0, no code) that the gate treats as
Unverifiable; it never propagates. -/
theorem C9_gateway_never_throws :
    (∀ (status : Nat) (body : Option HylaBody),
      (callHylaGateway (.http status body)).status = status
      ∧ (callHylaGateway (.http status body)).message ≠ "")
    ∧ (∀ errMsg : String,
      (callHylaGateway (.transportError errMsg)).success = false
      ∧ (callHylaGateway (.transportError errMsg)).status = 0
      ∧ (callHylaGateway (.transportError errMsg)).hylaCode = none
      ∧ classifyGateOutcome (callHylaGateway (.transportError errMsg)) = .Unverifiable
      ∧ (callHylaGateway (.transportError errMsg)).message ≠ "") := by
  constructor
  · intro status body
    have hred : callHylaGateway (.http status body)
        = (if httpOk status
              && (match extractHylaCode body with | none => true | some c => c < 4000) then
            { success := true, data := body, status := status,
              hylaCode := extractHylaCode body, hylaMessage := extractHylaMessage body,
              message := "Hyla verification successful" }
          else
            { success := false, data := body, status := status,
              hylaCode := extractHylaCode body,
              hylaMessage := jsOr (extractHylaMessage body)
                (jsOr ((match extractHylaCode body with
                  | some c => HYLA_ERROR_CODES c | none => none).getD "") "")
              message := jsOr (extractHylaMessage body)
                (jsOr ((match extractHylaCode body with
                  | some c => HYLA_ERROR_CODES c | none => none).getD "")
                  ("Hyla returned HTTP " ++ Nat.repr status)) }) := rfl
    rw [hred]
    split
    · refine ⟨rfl, ?_⟩
      show ("Hyla verification successful" : String) ≠ ""
      decide
    · refine ⟨rfl, ?_⟩
      exact jsOr_ne_empty _ _ (jsOr_ne_empty _ _ (append_ne_empty_left _ _ (by decide)))
  · intro errMsg
    exact ⟨rfl, rfl, rfl, rfl, append_ne_empty_left _ _ (by decide)⟩
